import Mathlib

/-!
Verification of the BLE controller timeslot arbiter interface
(`src/ble_controller/include/timeslot.h`, `src/ble_controller/include/ble_controller.h`).

The repository ships only the public headers: the timing constants, the request,
response and signal vocabularies, the documented execution context of every
signal, and the documented return codes of `timeslot_session_open`,
`timeslot_session_close` and `timeslot_request`.  The arbiter state machine
itself is not part of the sources, so its behaviour is modelled from the design
document (validation rule order, session life cycle, extension and
invalid-return handling); every constant, enum value and documented fact that
does appear in the headers is embedded directly from them.
-/

namespace Timeslot

/-! ## Constants from timeslot.h (lines 33-56) -/

/-- `#define TIMESLOT_LENGTH_MIN_US (100UL)` -/
def TIMESLOT_LENGTH_MIN_US : Nat := 100

/-- `#define TIMESLOT_LENGTH_MAX_US (100000UL)` -/
def TIMESLOT_LENGTH_MAX_US : Nat := 100000

/-- `#define TIMESLOT_DISTANCE_MAX_US (128000000UL - 1UL)` -/
def TIMESLOT_DISTANCE_MAX_US : Nat := 128000000 - 1

/-- `#define TIMESLOT_EARLIEST_TIMEOUT_MAX_US (128000000UL - 1UL)` -/
def TIMESLOT_EARLIEST_TIMEOUT_MAX_US : Nat := 128000000 - 1

/-- `#define TIMESLOT_START_JITTER_US (2UL)` -/
def TIMESLOT_START_JITTER_US : Nat := 2

/-- `#define TIMESLOT_EXTENSION_TIME_MIN_US (200UL)` -/
def TIMESLOT_EXTENSION_TIME_MIN_US : Nat := 200

/-- `#define TIMESLOT_EXTENSION_PROCESSING_TIME_MAX_US (17UL)` -/
def TIMESLOT_EXTENSION_PROCESSING_TIME_MAX_US : Nat := 17

/-- `#define TIMESLOT_EXTENSION_MARGIN_MIN_US (79UL)` -/
def TIMESLOT_EXTENSION_MARGIN_MIN_US : Nat := 79

/-! ## Signal and action vocabularies from timeslot.h (enums, lines 58-118) -/

/-- `TIMESLOT_SIGNAL_START = 0` -/
def TIMESLOT_SIGNAL_START : Nat := 0
/-- `TIMESLOT_SIGNAL_TIMER0 = 1` -/
def TIMESLOT_SIGNAL_TIMER0 : Nat := 1
/-- `TIMESLOT_SIGNAL_RADIO = 2` -/
def TIMESLOT_SIGNAL_RADIO : Nat := 2
/-- `TIMESLOT_SIGNAL_EXTEND_FAILED = 3` -/
def TIMESLOT_SIGNAL_EXTEND_FAILED : Nat := 3
/-- `TIMESLOT_SIGNAL_EXTEND_SUCCEEDED = 4` -/
def TIMESLOT_SIGNAL_EXTEND_SUCCEEDED : Nat := 4
/-- `TIMESLOT_SIGNAL_BLOCKED = 5` -/
def TIMESLOT_SIGNAL_BLOCKED : Nat := 5
/-- `TIMESLOT_SIGNAL_CANCELLED = 6` -/
def TIMESLOT_SIGNAL_CANCELLED : Nat := 6
/-- `TIMESLOT_SIGNAL_SESSION_IDLE = 7` -/
def TIMESLOT_SIGNAL_SESSION_IDLE : Nat := 7
/-- `TIMESLOT_SIGNAL_INVALID_RETURN = 8` -/
def TIMESLOT_SIGNAL_INVALID_RETURN : Nat := 8

/-- `TIMESLOT_SIGNAL_ACTION_NONE = 0` -/
def TIMESLOT_SIGNAL_ACTION_NONE : Nat := 0
/-- `TIMESLOT_SIGNAL_ACTION_EXTEND = 1` -/
def TIMESLOT_SIGNAL_ACTION_EXTEND : Nat := 1
/-- `TIMESLOT_SIGNAL_ACTION_END = 2` -/
def TIMESLOT_SIGNAL_ACTION_END : Nat := 2
/-- `TIMESLOT_SIGNAL_ACTION_REQUEST = 3` -/
def TIMESLOT_SIGNAL_ACTION_REQUEST : Nat := 3

/-- Execution contexts documented in the doc comments of `enum TIMESLOT_SIGNAL`
    (timeslot.h lines 58-92) and of `ble_controller_low_prio_tasks_process`. -/
inductive ExecContext where
  /-- same context as `ble_controller_TIMER0_IRQHandler` -/
  | timer0Irq : ExecContext
  /-- same context as `ble_controller_RADIO_IRQHandler` -/
  | radioIrq : ExecContext
  /-- "the same context as the previous signal" -/
  | sameAsPrevious : ExecContext
  /-- same context as `ble_controller_low_prio_tasks_process` -/
  | lowPrioTasksProcess : ExecContext
deriving DecidableEq, Repr

/-- The execution context documented for each signal value in the doc comments
    of `enum TIMESLOT_SIGNAL` in timeslot.h (lines 58-92).  `none` for values
    that are not signals. -/
def signal_context (sig : Nat) : Option ExecContext :=
  if sig = TIMESLOT_SIGNAL_START then some .timer0Irq
  else if sig = TIMESLOT_SIGNAL_TIMER0 then some .timer0Irq
  else if sig = TIMESLOT_SIGNAL_RADIO then some .radioIrq
  else if sig = TIMESLOT_SIGNAL_EXTEND_FAILED then some .sameAsPrevious
  else if sig = TIMESLOT_SIGNAL_EXTEND_SUCCEEDED then some .sameAsPrevious
  else if sig = TIMESLOT_SIGNAL_BLOCKED then some .lowPrioTasksProcess
  else if sig = TIMESLOT_SIGNAL_CANCELLED then some .lowPrioTasksProcess
  else if sig = TIMESLOT_SIGNAL_SESSION_IDLE then some .lowPrioTasksProcess
  else if sig = TIMESLOT_SIGNAL_INVALID_RETURN then some .sameAsPrevious
  else none

/-! ## Request parameters (timeslot.h lines 162-197) -/

/-- `timeslot_request_earliest_t` -/
structure timeslot_request_earliest_t where
  hfclk : Nat
  priority : Nat
  length_us : Nat
  timeout_us : Nat
deriving DecidableEq, Repr

/-- `timeslot_request_normal_t` -/
structure timeslot_request_normal_t where
  hfclk : Nat
  priority : Nat
  distance_us : Nat
  length_us : Nat
deriving DecidableEq, Repr

/-- `timeslot_request_t`: `request_type` tag plus the matching union member. -/
inductive timeslot_request_t where
  | earliest (p : timeslot_request_earliest_t) : timeslot_request_t
  | normal (p : timeslot_request_normal_t) : timeslot_request_t
deriving DecidableEq, Repr

/-- the `length_us` field of either union member -/
def reqLength : timeslot_request_t → Nat
  | .earliest p => p.length_us
  | .normal p => p.length_us

/-- the `hfclk` field of either union member -/
def reqHfclk : timeslot_request_t → Nat
  | .earliest p => p.hfclk
  | .normal p => p.hfclk

/-- the `priority` field of either union member -/
def reqPriority : timeslot_request_t → Nat
  | .earliest p => p.priority
  | .normal p => p.priority

/-- `timeslot_signal_return_param_t`: the action code (a `uint8_t`, so
    unrecognized values are representable) together with the union members.
    The C union member `request.p_next` is a possibly-null pointer, embedded
    as an `Option`. -/
structure timeslot_signal_return_param_t where
  callback_action : Nat
  ext_length_us : Nat
  p_next : Option timeslot_request_t
deriving DecidableEq, Repr

/-! ## Results -/

/-- Return codes documented in timeslot.h: `0` success, `-NRF_EAGAIN`,
    `-NRF_EINVAL`. -/
inductive TsResult where
  | ok : TsResult
  | eagain : TsResult
  | einval : TsResult
deriving DecidableEq, Repr

/-- Modelled from the spec: the request validator's verdict,
    `Ok | Rejected(reason)` with the three rejection reasons of its rule list
    (the validator implementation is not in the sources). -/
inductive ValidateResult where
  | Ok : ValidateResult
  | RejectedOutOfRange : ValidateResult
  | RejectedMustBeEarliestFirst : ValidateResult
  | RejectedBusy : ValidateResult
deriving DecidableEq, Repr

/-- Mapping of validator verdicts onto the header's documented return codes:
    invalid parameters give `NRF_EINVAL`, a session that is not open or not
    IDLE gives `NRF_EAGAIN`. -/
def ValidateResult.toErrno : ValidateResult → TsResult
  | .Ok => .ok
  | .RejectedBusy => .eagain
  | .RejectedOutOfRange => .einval
  | .RejectedMustBeEarliestFirst => .einval

/-! ## Scheduler state -/

/-- Modelled from the spec: session states of the arbiter state machine
    (the scheduler implementation is not in the sources). -/
inductive SessionState where
  | Closed : SessionState
  | Idle : SessionState
  | Pending : SessionState
  | Active : SessionState
deriving DecidableEq, Repr

/-- Modelled from the spec: the active timeslot ("Grant") with its start time,
    length (mutable upward via extension), clock choice and priority. -/
structure Grant where
  start_time : Nat
  length_us : Nat
  hfclk : Nat
  priority : Nat
deriving DecidableEq, Repr

/-- end of a grant's window -/
def Grant.endTime (g : Grant) : Nat := g.start_time + g.length_us

/-- Modelled from the spec: the global arbiter state.  `sessions` counts open
    sessions (open increments it, close decrements), `pending` is the request
    slot (the spec's fixed-size slot of capacity one is kept as a list so that
    the capacity bound is a proved invariant, not a typing artefact),
    `hasPriorGrant` records whether a grant has occurred in this session,
    `lastGrantStart` the start of the previous timeslot, and `lowPrio` the
    queue of deferred low-priority signals awaiting
    `ble_controller_low_prio_tasks_process`. -/
structure SchedState where
  sessions : Nat
  state : SessionState
  hasPriorGrant : Bool
  lastGrantStart : Nat
  pending : List timeslot_request_t
  grant : Option Grant
  lowPrio : List Nat
deriving DecidableEq, Repr

/-- the state before any API call: no session, nothing queued -/
def initState : SchedState :=
  { sessions := 0, state := .Closed, hasPriorGrant := false,
    lastGrantStart := 0, pending := [], grant := none, lowPrio := [] }

/-! ## Session open / close -/

/-- Modelled from the spec: `timeslot_session_open` (implementation not in the
    sources; the header documents `0` on success and `NRF_EAGAIN` when the
    session is already open).  `Closed → Idle`, fails when not `Closed`. -/
def timeslot_session_open (s : SchedState) : TsResult × SchedState :=
  if s.state = .Closed then
    (.ok, { sessions := s.sessions + 1, state := .Idle, hasPriorGrant := false,
            lastGrantStart := 0, pending := [], grant := none,
            lowPrio := s.lowPrio })
  else (.eagain, s)

/-- Modelled from the spec: `timeslot_session_close` (implementation not in
    the sources; the header documents `0` on success and `NRF_EAGAIN` when the
    session is already closed).  Any current timeslot is force-ended, a
    scheduled (pending) request is cancelled with `SIGNAL_CANCELLED`, then the
    state returns to `Closed`. -/
def timeslot_session_close (s : SchedState) : TsResult × SchedState :=
  if s.state = .Closed then (.eagain, s)
  else
    (.ok, { sessions := s.sessions - 1, state := .Closed,
            hasPriorGrant := false, lastGrantStart := 0, pending := [],
            grant := none,
            lowPrio := s.lowPrio ++
              (if s.state = .Pending then [TIMESLOT_SIGNAL_CANCELLED] else []) })

/-! ## Request validation and submission -/

/-- slot length inside `[TIMESLOT_LENGTH_MIN_US, TIMESLOT_LENGTH_MAX_US]` -/
def length_in_range (len : Nat) : Bool :=
  decide (TIMESLOT_LENGTH_MIN_US ≤ len) && decide (len ≤ TIMESLOT_LENGTH_MAX_US)

/-- Modelled from the spec: the request validator (implementation not in the
    sources), rules evaluated in order with the first failure winning:
    length out of range, then the variant's timeout/distance bound, then the
    earliest-first rule for `Normal` requests, then the busy check.  -/
def validate (st : SessionState) (hasPrior : Bool) (r : timeslot_request_t) :
    ValidateResult :=
  if !length_in_range (reqLength r) then .RejectedOutOfRange
  else
    match r with
    | .earliest p =>
      if !(decide (0 < p.timeout_us) &&
           decide (p.timeout_us ≤ TIMESLOT_EARLIEST_TIMEOUT_MAX_US)) then
        .RejectedOutOfRange
      else if st ≠ .Idle then .RejectedBusy
      else .Ok
    | .normal p =>
      if !(decide (0 < p.distance_us) &&
           decide (p.distance_us ≤ TIMESLOT_DISTANCE_MAX_US)) then
        .RejectedOutOfRange
      else if !hasPrior then .RejectedMustBeEarliestFirst
      else if st ≠ .Idle then .RejectedBusy
      else .Ok

/-- Modelled from the spec: `timeslot_request` (implementation not in the
    sources).  On success the request is enqueued in the single slot and the
    session moves `Idle → Pending`; every rejection leaves the state
    unchanged and is reported through the header's return codes. -/
def timeslot_request (s : SchedState) (r : timeslot_request_t) :
    TsResult × SchedState :=
  match validate s.state s.hasPriorGrant r with
  | .Ok => (.ok, { s with state := .Pending, pending := [r] })
  | v => (v.toErrno, s)

/-! ## Grant admission, blocking, expiry -/

/-- actual start within `± TIMESLOT_START_JITTER_US` of the nominal start -/
def startWithinJitter (nominal actual : Nat) : Bool :=
  decide (nominal ≤ actual + TIMESLOT_START_JITTER_US) &&
  decide (actual ≤ nominal + TIMESLOT_START_JITTER_US)

/-- Admissible start times for the queued request.  A `Normal` request's
    nominal start is `lastGrantStart + distance_us`: timeslot.h documents
    `distance_us` as "Distance from the start of the previous timeslot".
    An `Earliest` request may start at any conflict-free time inside its
    timeout, which the model leaves unconstrained. -/
def grantStartOk (s : SchedState) (r : timeslot_request_t) (actual : Nat) :
    Bool :=
  match r with
  | .earliest _ => true
  | .normal p => startWithinJitter (s.lastGrantStart + p.distance_us) actual

/-- Modelled from the spec: the scheduler admits the queued request
    (`Pending → Active`), emitting `SIGNAL_START`; the start time respects the
    documented jitter bound. -/
def tryGrantStart (s : SchedState) (actual : Nat) : List Nat × SchedState :=
  match s.state, s.pending with
  | .Pending, [r] =>
    if grantStartOk s r actual then
      ([TIMESLOT_SIGNAL_START],
       { s with state := .Active, pending := [], hasPriorGrant := true,
                lastGrantStart := actual,
                grant := some { start_time := actual, length_us := reqLength r,
                                hfclk := reqHfclk r,
                                priority := reqPriority r } })
    else ([], s)
  | _, _ => ([], s)

/-- Modelled from the spec: no conflict-free window exists before the
    deadline, so the queued request is dropped, `SIGNAL_BLOCKED` is queued for
    the low-priority context and the session returns to `Idle`. -/
def blockPending (s : SchedState) : SchedState :=
  match s.state, s.pending with
  | .Pending, [_] =>
    { s with state := .Idle, pending := [],
             lowPrio := s.lowPrio ++ [TIMESLOT_SIGNAL_BLOCKED] }
  | _, _ => s

/-- Modelled from the spec: ending the active grant and returning to `Idle`
    with no queued successor queues `SIGNAL_SESSION_IDLE` for the low-priority
    context. -/
def endGrantToIdle (s : SchedState) : SchedState :=
  { s with state := .Idle, grant := none,
           lowPrio := s.lowPrio ++ [TIMESLOT_SIGNAL_SESSION_IDLE] }

/-- Modelled from the spec: the active grant reaches its natural expiry,
    `Active → Idle`. -/
def naturalExpiry (s : SchedState) : SchedState :=
  match s.state, s.grant with
  | .Active, some _ => endGrantToIdle s
  | _, _ => s

/-! ## Owner responses during a timeslot -/

/-- Structural validation of the owner's returned
    `timeslot_signal_return_param_t` during a timeslot: the action code must
    be one of the four `TIMESLOT_SIGNAL_ACTION` values, a `REQUEST` action
    must carry a non-null `p_next`, and timeslot.h notes that an earliest
    request is not permitted from within a timeslot, so an embedded
    `TIMESLOT_REQ_TYPE_EARLIEST` request fails this validation. -/
def response_valid (r : timeslot_signal_return_param_t) : Bool :=
  if r.callback_action = TIMESLOT_SIGNAL_ACTION_NONE then true
  else if r.callback_action = TIMESLOT_SIGNAL_ACTION_EXTEND then true
  else if r.callback_action = TIMESLOT_SIGNAL_ACTION_END then true
  else if r.callback_action = TIMESLOT_SIGNAL_ACTION_REQUEST then
    match r.p_next with
    | none => false
    | some (.earliest _) => false
    | some (.normal _) => true
  else false

/-- acceptance test for an extension: at least
    `TIMESLOT_EXTENSION_MARGIN_MIN_US` must remain before the grant end, the
    extension must be at least `TIMESLOT_EXTENSION_TIME_MIN_US`, and the
    extended region must not overlap the Competing Internal Demand's next
    reserved window after the current end (`cid` is the spec's
    `next_reserved_window` query returning start, length and priority). -/
def extendOk (cid : Nat → Nat × Nat × Nat) (now : Nat) (g : Grant)
    (ext : Nat) : Bool :=
  let e := g.endTime
  let w := cid e
  decide (now + TIMESLOT_EXTENSION_MARGIN_MIN_US ≤ e) &&
  decide (TIMESLOT_EXTENSION_TIME_MIN_US ≤ ext) &&
  !(decide (e < w.1 + w.2.1) && decide (w.1 < e + ext))

/-- Modelled from the spec: the signal dispatcher's handling of the owner's
    response while a grant is active (implementation not in the sources).
    Returns the signals emitted synchronously in the same signal-handling
    pass together with the next state; deferred low-priority signals are
    appended to the state's `lowPrio` queue instead.  An invalid response
    force-ends the grant and emits `SIGNAL_INVALID_RETURN` in the same
    execution context; with no active grant the dispatcher is a defensive
    no-op. -/
def handleResponse (cid : Nat → Nat × Nat × Nat) (now : Nat) (s : SchedState)
    (r : timeslot_signal_return_param_t) : List Nat × SchedState :=
  match s.grant with
  | none => ([], s)
  | some g =>
    if !response_valid r then
      ([TIMESLOT_SIGNAL_INVALID_RETURN], endGrantToIdle s)
    else if r.callback_action = TIMESLOT_SIGNAL_ACTION_NONE then ([], s)
    else if r.callback_action = TIMESLOT_SIGNAL_ACTION_EXTEND then
      if extendOk cid now g r.ext_length_us then
        let g2 : Grant := { g with length_us := g.length_us + r.ext_length_us }
        ([TIMESLOT_SIGNAL_EXTEND_SUCCEEDED], { s with grant := some g2 })
      else ([TIMESLOT_SIGNAL_EXTEND_FAILED], s)
    else if r.callback_action = TIMESLOT_SIGNAL_ACTION_END then
      ([], endGrantToIdle s)
    else
      match r.p_next with
      | some req =>
        match validate .Idle s.hasPriorGrant req with
        | .Ok => ([], { s with state := .Pending, grant := none,
                               pending := [req] })
        | _ => ([], endGrantToIdle s)
      | none => ([], s)

/-- Modelled from the spec: `ble_controller_low_prio_tasks_process` delivers
    every deferred low-priority signal in the order the triggering events
    queued them, then empties the queue. -/
def low_prio_tasks_process (s : SchedState) : List Nat × SchedState :=
  (s.lowPrio, { s with lowPrio := [] })

/-! ## Reachable states -/

/-- Modelled from the spec: the states the arbiter can reach from power-up
    through any sequence of API calls, hardware events and owner responses. -/
inductive Reachable : SchedState → Prop where
  | init : Reachable initState
  | sopen {s} : Reachable s → Reachable (timeslot_session_open s).2
  | sclose {s} : Reachable s → Reachable (timeslot_session_close s).2
  | request {s} (r : timeslot_request_t) :
      Reachable s → Reachable (timeslot_request s r).2
  | grantStart {s} (actual : Nat) :
      Reachable s → Reachable (tryGrantStart s actual).2
  | blocked {s} : Reachable s → Reachable (blockPending s)
  | expiry {s} : Reachable s → Reachable (naturalExpiry s)
  | response {s} (cid : Nat → Nat × Nat × Nat) (now : Nat)
      (r : timeslot_signal_return_param_t) :
      Reachable s → Reachable (handleResponse cid now s r).2
  | lowprio {s} : Reachable s → Reachable (low_prio_tasks_process s).2

/-- the arbiter's structural invariant: at most one open session, at most one
    queued request, a session exists exactly when the state is not `Closed`,
    a queued request only while `Pending`, and a grant exactly while
    `Active`. -/
def Inv (s : SchedState) : Prop :=
  s.sessions ≤ 1 ∧ s.pending.length ≤ 1 ∧
  (s.state = .Closed ↔ s.sessions = 0) ∧
  (s.pending ≠ [] → s.state = .Pending) ∧
  (s.grant.isSome ↔ s.state = .Active)

/-! ## Concrete states and responses used to instantiate the claims -/

/-- a reachable state with a request pending: open a session, then submit a
    valid Earliest request -/
def c1Pending : SchedState :=
  (timeslot_request (timeslot_session_open initState).2
    (.earliest { hfclk := 0, priority := 0, length_us := 1000,
                 timeout_us := 50000 })).2

/-- an owner response carrying the `EXTEND` action with `ext` microseconds -/
def extendResp (ext : Nat) : timeslot_signal_return_param_t :=
  { callback_action := TIMESLOT_SIGNAL_ACTION_EXTEND, ext_length_us := ext,
    p_next := none }

/-- a Competing Internal Demand whose next reserved window is far away -/
def c4Cid : Nat → Nat × Nat × Nat := fun _ => (1000000, 100, 0)

/-- an active session holding the grant `[0, 1000)` -/
def c4State : SchedState :=
  { sessions := 1, state := .Active, hasPriorGrant := true,
    lastGrantStart := 0, pending := [],
    grant := some { start_time := 0, length_us := 1000, hfclk := 0,
                    priority := 0 },
    lowPrio := [] }

/-- an active session holding the grant `[0, 1000)` -/
def c5State : SchedState :=
  { sessions := 1, state := .Active, hasPriorGrant := true,
    lastGrantStart := 0, pending := [],
    grant := some { start_time := 0, length_us := 1000, hfclk := 0,
                    priority := 0 },
    lowPrio := [] }

/-- an owner response with an unrecognized action code -/
def c5Resp : timeslot_signal_return_param_t :=
  { callback_action := 9, ext_length_us := 0, p_next := none }

/-- an owner response carrying the `REQUEST` action with `req` as `p_next` -/
def requestResp (req : timeslot_request_t) : timeslot_signal_return_param_t :=
  { callback_action := TIMESLOT_SIGNAL_ACTION_REQUEST, ext_length_us := 0,
    p_next := some req }

/-- the Earliest request parameters embedded in a `REQUEST` action -/
def c10Req : timeslot_request_earliest_t :=
  { hfclk := 0, priority := 0, length_us := 1000, timeout_us := 50000 }

/-- an active session holding the grant `[0, 1000)` -/
def c10State : SchedState :=
  { sessions := 1, state := .Active, hasPriorGrant := true,
    lastGrantStart := 0, pending := [],
    grant := some { start_time := 0, length_us := 1000, hfclk := 0,
                    priority := 0 },
    lowPrio := [] }

/-- step 1 of the C6 trace: open a session -/
def c6Trace1 : SchedState := (timeslot_session_open initState).2

/-- step 2: submit `Earliest{length=500, timeout=50000}` -/
def c6Trace2 : SchedState :=
  (timeslot_request c6Trace1
    (.earliest { hfclk := 0, priority := 0, length_us := 500,
                 timeout_us := 50000 })).2

/-- step 3: the scheduler grants the request at start time 0, so the grant
    runs over `[0, 500)` and ends at t = 500 -/
def c6Trace3 : SchedState := (tryGrantStart c6Trace2 0).2

/-- step 4: the grant expires naturally at t = 500 -/
def c6Trace4 : SchedState := naturalExpiry c6Trace3

/-- step 5: immediately submit `Normal{distance=200, length=500}` -/
def c6Trace5 : SchedState :=
  (timeslot_request c6Trace4
    (.normal { hfclk := 0, priority := 0, distance_us := 200,
               length_us := 500 })).2

/-! ## Helper lemmas -/

lemma timeslot_request_fst (s : SchedState) (r : timeslot_request_t) :
    (timeslot_request s r).1 = (validate s.state s.hasPriorGrant r).toErrno := by
  unfold timeslot_request
  cases validate s.state s.hasPriorGrant r <;> rfl

lemma timeslot_request_reject {s : SchedState} {r : timeslot_request_t}
    (h : validate s.state s.hasPriorGrant r ≠ .Ok) :
    (timeslot_request s r).2 = s := by
  unfold timeslot_request
  cases hv : validate s.state s.hasPriorGrant r
  · exact absurd hv h
  · rfl
  · rfl
  · rfl

lemma toErrno_eq_ok {v : ValidateResult} :
    v.toErrno = .ok ↔ v = .Ok := by
  cases v <;> simp [ValidateResult.toErrno]

lemma validate_ok_iff (st : SessionState) (hp : Bool)
    (r : timeslot_request_t) :
    validate st hp r = .Ok ↔
      (length_in_range (reqLength r) = true ∧ st = .Idle ∧
       (match r with
        | .earliest p => 0 < p.timeout_us ∧
            p.timeout_us ≤ TIMESLOT_EARLIEST_TIMEOUT_MAX_US
        | .normal p => (0 < p.distance_us ∧
            p.distance_us ≤ TIMESLOT_DISTANCE_MAX_US) ∧ hp = true)) := by
  unfold validate
  cases r <;> split_ifs <;> simp_all [Nat.pos_iff_ne_zero] <;>
    split_ifs <;> simp_all

lemma validate_ok_idle {st : SessionState} {hp : Bool} {r : timeslot_request_t}
    (h : validate st hp r = .Ok) : st = .Idle := by
  rw [validate_ok_iff] at h
  exact h.2.1

lemma validate_normal_no_prior (st : SessionState)
    (p : timeslot_request_normal_t) :
    validate st false (.normal p) ≠ .Ok := by
  simp only [ne_eq, validate_ok_iff]
  simp

lemma validate_not_idle {st : SessionState} {hp : Bool}
    {r : timeslot_request_t} (hv : validate .Idle hp r = .Ok)
    (hst : st ≠ .Idle) : validate st hp r = .RejectedBusy := by
  rw [validate_ok_iff] at hv
  unfold validate
  cases r <;> split_ifs <;> simp_all [Nat.pos_iff_ne_zero]

/-! ## Claims -/

/-- C9: the documented timing limits are reproduced exactly as the defined
    constants: minimum slot length 100µs, maximum slot length 100000µs,
    maximum distance and maximum earliest timeout both 128000000µs − 1,
    start jitter ±2µs, minimum extension 200µs, maximum extension processing
    time 17µs, minimum extension margin 79µs. -/
theorem C9_timing_constants :
    TIMESLOT_LENGTH_MIN_US = 100 ∧
    TIMESLOT_LENGTH_MAX_US = 100000 ∧
    TIMESLOT_DISTANCE_MAX_US = 128000000 - 1 ∧
    TIMESLOT_EARLIEST_TIMEOUT_MAX_US = 128000000 - 1 ∧
    TIMESLOT_START_JITTER_US = 2 ∧
    TIMESLOT_EXTENSION_TIME_MIN_US = 200 ∧
    TIMESLOT_EXTENSION_PROCESSING_TIME_MAX_US = 17 ∧
    TIMESLOT_EXTENSION_MARGIN_MIN_US = 79 := by
  decide

/-- C2: for every arbiter state, `timeslot_session_open` returns `NRF_EAGAIN`
    (already open) iff the session state is not `Closed` and otherwise
    succeeds moving `Closed` to `Idle`; `timeslot_session_close` returns
    `NRF_EAGAIN` (already closed) iff the state is `Closed` and otherwise
    succeeds. -/
theorem C2_session_open_close (s : SchedState) :
    ((timeslot_session_open s).1 = .eagain ↔ s.state ≠ .Closed) ∧
    (s.state = .Closed →
      (timeslot_session_open s).1 = .ok ∧
      (timeslot_session_open s).2.state = .Idle) ∧
    ((timeslot_session_close s).1 = .eagain ↔ s.state = .Closed) ∧
    (s.state ≠ .Closed → (timeslot_session_close s).1 = .ok) := by
  unfold timeslot_session_open timeslot_session_close
  by_cases h : s.state = .Closed <;> simp [h]

/-- witness for C2 at the initial (closed) state -/
theorem C2_session_open_close_witness :
    ((timeslot_session_open initState).1 = .eagain ↔
       initState.state ≠ .Closed) ∧
    (initState.state = .Closed →
      (timeslot_session_open initState).1 = .ok ∧
      (timeslot_session_open initState).2.state = .Idle) ∧
    ((timeslot_session_close initState).1 = .eagain ↔
       initState.state = .Closed) ∧
    (initState.state ≠ .Closed →
       (timeslot_session_close initState).1 = .ok) :=
  C2_session_open_close initState

/-- C7: a Normal request submitted while no prior grant exists in the session
    is always rejected, and only an Earliest request can be the first accepted
    request of a session. -/
theorem C7_earliest_must_be_first (s : SchedState)
    (p : timeslot_request_normal_t) (r : timeslot_request_t)
    (h : s.hasPriorGrant = false) :
    (timeslot_request s (.normal p)).1 ≠ .ok ∧
    ((timeslot_request s r).1 = .ok →
       ∃ q, r = .earliest q) := by
  constructor
  · rw [timeslot_request_fst, h]
    simp only [ne_eq, toErrno_eq_ok]
    exact validate_normal_no_prior s.state p
  · intro hok
    rw [timeslot_request_fst, toErrno_eq_ok] at hok
    cases r with
    | earliest q => exact ⟨q, rfl⟩
    | normal q =>
      rw [h] at hok
      exact absurd hok (validate_normal_no_prior s.state q)

/-- witness for C7: in a freshly opened session a Normal request is rejected
    while an Earliest request is the accepted first request -/
theorem C7_earliest_must_be_first_witness :
    (timeslot_request (timeslot_session_open initState).2
       (.normal { hfclk := 0, priority := 0, distance_us := 200,
                  length_us := 500 })).1 ≠ .ok ∧
    ((timeslot_request (timeslot_session_open initState).2
        (.earliest { hfclk := 0, priority := 0, length_us := 1000,
                     timeout_us := 50000 })).1 = .ok →
       ∃ q, (timeslot_request_t.earliest
               { hfclk := 0, priority := 0, length_us := 1000,
                 timeout_us := 50000 } : timeslot_request_t) = .earliest q) :=
  ⟨(C7_earliest_must_be_first (timeslot_session_open initState).2
      { hfclk := 0, priority := 0, distance_us := 200, length_us := 500 }
      (.earliest { hfclk := 0, priority := 0, length_us := 1000,
                   timeout_us := 50000 }) rfl).1,
   (C7_earliest_must_be_first (timeslot_session_open initState).2
      { hfclk := 0, priority := 0, distance_us := 200, length_us := 500 }
      (.earliest { hfclk := 0, priority := 0, length_us := 1000,
                   timeout_us := 50000 }) rfl).2⟩

/-- The validator exactly as the claim words it: five rules evaluated in the
    listed order with the first failure winning.  Stated independently of
    `validate` so that agreement between the two is a theorem. -/
def validate_claim (st : SessionState) (hasPrior : Bool)
    (r : timeslot_request_t) : ValidateResult :=
  if !length_in_range (reqLength r) then .RejectedOutOfRange
  else if (match r with
           | .earliest p => !(decide (0 < p.timeout_us) &&
               decide (p.timeout_us ≤ TIMESLOT_EARLIEST_TIMEOUT_MAX_US))
           | .normal _ => false) then .RejectedOutOfRange
  else if (match r with
           | .normal p => !(decide (0 < p.distance_us) &&
               decide (p.distance_us ≤ TIMESLOT_DISTANCE_MAX_US))
           | .earliest _ => false) then .RejectedOutOfRange
  else if (match r with
           | .normal _ => !hasPrior
           | .earliest _ => false) then .RejectedMustBeEarliestFirst
  else if st ≠ .Idle then .RejectedBusy
  else .Ok

/-- C3: the validator evaluates its rules in the listed order with the first
    failure winning — length out of `[100, 100000]` µs, an Earliest timeout
    outside `(0, 128000000-1]` µs, a Normal distance outside
    `(0, 128000000-1]` µs, a Normal request with no prior grant, and finally
    a session state other than `Idle` — and every rejection leaves the
    scheduler state completely unchanged. -/
theorem C3_validation_rules (s : SchedState) (r : timeslot_request_t) :
    validate s.state s.hasPriorGrant r =
      validate_claim s.state s.hasPriorGrant r ∧
    (validate_claim s.state s.hasPriorGrant r ≠ .Ok →
      timeslot_request s r =
        ((validate_claim s.state s.hasPriorGrant r).toErrno, s)) := by
  have hagree : validate s.state s.hasPriorGrant r =
      validate_claim s.state s.hasPriorGrant r := by
    unfold validate validate_claim
    cases r <;> split_ifs <;> simp_all
  refine ⟨hagree, fun hne => ?_⟩
  rw [← hagree] at hne ⊢
  rw [Prod.ext_iff]
  exact ⟨timeslot_request_fst s r, timeslot_request_reject hne⟩

/-- witness for C3: a Normal request with invalid length in a fresh session is
    rejected by the first rule and the state is unchanged -/
theorem C3_validation_rules_witness :
    (validate (timeslot_session_open initState).2.state
        (timeslot_session_open initState).2.hasPriorGrant
        (.normal { hfclk := 0, priority := 0, distance_us := 200,
                   length_us := 50 }) =
      validate_claim (timeslot_session_open initState).2.state
        (timeslot_session_open initState).2.hasPriorGrant
        (.normal { hfclk := 0, priority := 0, distance_us := 200,
                   length_us := 50 })) ∧
    (validate_claim (timeslot_session_open initState).2.state
        (timeslot_session_open initState).2.hasPriorGrant
        (.normal { hfclk := 0, priority := 0, distance_us := 200,
                   length_us := 50 }) ≠ .Ok →
      timeslot_request (timeslot_session_open initState).2
          (.normal { hfclk := 0, priority := 0, distance_us := 200,
                     length_us := 50 }) =
        ((validate_claim (timeslot_session_open initState).2.state
            (timeslot_session_open initState).2.hasPriorGrant
            (.normal { hfclk := 0, priority := 0, distance_us := 200,
                       length_us := 50 })).toErrno,
         (timeslot_session_open initState).2)) :=
  C3_validation_rules (timeslot_session_open initState).2
    (.normal { hfclk := 0, priority := 0, distance_us := 200,
               length_us := 50 })

/-! ## Equation lemmas for the dispatcher -/

lemma handleResponse_grant_none {cid : Nat → Nat × Nat × Nat} {now : Nat}
    {s : SchedState} {r : timeslot_signal_return_param_t}
    (hg : s.grant = none) : handleResponse cid now s r = ([], s) := by
  unfold handleResponse
  rw [hg]

lemma handleResponse_invalid {cid : Nat → Nat × Nat × Nat} {now : Nat}
    {s : SchedState} {g : Grant} {r : timeslot_signal_return_param_t}
    (hg : s.grant = some g) (hv : response_valid r = false) :
    handleResponse cid now s r =
      ([TIMESLOT_SIGNAL_INVALID_RETURN], endGrantToIdle s) := by
  unfold handleResponse
  rw [hg]
  simp [hv]

lemma handleResponse_action_none {cid : Nat → Nat × Nat × Nat} {now : Nat}
    {s : SchedState} {g : Grant} {r : timeslot_signal_return_param_t}
    (hg : s.grant = some g)
    (ha : r.callback_action = TIMESLOT_SIGNAL_ACTION_NONE) :
    handleResponse cid now s r = ([], s) := by
  have hv : response_valid r = true := by
    unfold response_valid
    rw [ha]
    rfl
  unfold handleResponse
  rw [hg]
  simp [hv, ha]

lemma handleResponse_extend {cid : Nat → Nat × Nat × Nat} {now : Nat}
    {s : SchedState} {g : Grant} {r : timeslot_signal_return_param_t}
    (hg : s.grant = some g)
    (ha : r.callback_action = TIMESLOT_SIGNAL_ACTION_EXTEND) :
    handleResponse cid now s r =
      (if extendOk cid now g r.ext_length_us then
        ([TIMESLOT_SIGNAL_EXTEND_SUCCEEDED],
         { s with grant := some { g with length_us := g.length_us + r.ext_length_us } })
       else ([TIMESLOT_SIGNAL_EXTEND_FAILED], s)) := by
  have hv : response_valid r = true := by
    unfold response_valid
    rw [ha]
    rfl
  unfold handleResponse
  rw [hg]
  simp [hv, ha, TIMESLOT_SIGNAL_ACTION_NONE, TIMESLOT_SIGNAL_ACTION_EXTEND]

lemma handleResponse_action_end {cid : Nat → Nat × Nat × Nat} {now : Nat}
    {s : SchedState} {g : Grant} {r : timeslot_signal_return_param_t}
    (hg : s.grant = some g)
    (ha : r.callback_action = TIMESLOT_SIGNAL_ACTION_END) :
    handleResponse cid now s r = ([], endGrantToIdle s) := by
  have hv : response_valid r = true := by
    unfold response_valid
    rw [ha]
    rfl
  unfold handleResponse
  rw [hg]
  simp [hv, ha, TIMESLOT_SIGNAL_ACTION_NONE, TIMESLOT_SIGNAL_ACTION_EXTEND,
        TIMESLOT_SIGNAL_ACTION_END]

lemma handleResponse_request_earliest {cid : Nat → Nat × Nat × Nat}
    {now : Nat} {s : SchedState} {g : Grant}
    {r : timeslot_signal_return_param_t} {p : timeslot_request_earliest_t}
    (hg : s.grant = some g)
    (ha : r.callback_action = TIMESLOT_SIGNAL_ACTION_REQUEST)
    (hn : r.p_next = some (.earliest p)) :
    handleResponse cid now s r =
      ([TIMESLOT_SIGNAL_INVALID_RETURN], endGrantToIdle s) := by
  have hv : response_valid r = false := by
    unfold response_valid
    rw [ha, hn]
    rfl
  exact handleResponse_invalid hg hv

lemma handleResponse_request_normal {cid : Nat → Nat × Nat × Nat} {now : Nat}
    {s : SchedState} {g : Grant} {r : timeslot_signal_return_param_t}
    {p : timeslot_request_normal_t} (hg : s.grant = some g)
    (ha : r.callback_action = TIMESLOT_SIGNAL_ACTION_REQUEST)
    (hn : r.p_next = some (.normal p)) :
    handleResponse cid now s r =
      (match validate .Idle s.hasPriorGrant (.normal p) with
       | .Ok => ([], { s with state := .Pending, grant := none,
                              pending := [.normal p] })
       | _ => ([], endGrantToIdle s)) := by
  have hv : response_valid r = true := by
    unfold response_valid
    rw [ha, hn]
    rfl
  unfold handleResponse
  rw [hg]
  simp [hv, ha, hn, TIMESLOT_SIGNAL_ACTION_NONE, TIMESLOT_SIGNAL_ACTION_EXTEND,
        TIMESLOT_SIGNAL_ACTION_END, TIMESLOT_SIGNAL_ACTION_REQUEST]

lemma response_valid_action_cases {r : timeslot_signal_return_param_t}
    (hv : response_valid r = true) :
    r.callback_action = TIMESLOT_SIGNAL_ACTION_NONE ∨
    r.callback_action = TIMESLOT_SIGNAL_ACTION_EXTEND ∨
    r.callback_action = TIMESLOT_SIGNAL_ACTION_END ∨
    (r.callback_action = TIMESLOT_SIGNAL_ACTION_REQUEST ∧
      ∃ p : timeslot_request_normal_t, r.p_next = some (.normal p)) := by
  unfold response_valid at hv
  split_ifs at hv with h0 h1 h2 h3
  · exact Or.inl h0
  · exact Or.inr (Or.inl h1)
  · exact Or.inr (Or.inr (Or.inl h2))
  · refine Or.inr (Or.inr (Or.inr ⟨h3, ?_⟩))
    cases hn : r.p_next with
    | none => rw [hn] at hv; exact Bool.noConfusion hv
    | some req =>
      cases req with
      | earliest p => rw [hn] at hv; exact Bool.noConfusion hv
      | normal p => exact ⟨p, rfl⟩

/-! ## Invariant preservation -/

lemma inv_init : Inv initState := by
  refine ⟨?_, ?_, ?_, ?_, ?_⟩ <;> simp [initState]

lemma inv_open {s : SchedState} (h : Inv s) :
    Inv (timeslot_session_open s).2 := by
  obtain ⟨h1, h2, h3, h4, h5⟩ := h
  unfold timeslot_session_open
  by_cases hc : s.state = .Closed
  · have hs0 : s.sessions = 0 := h3.mp hc
    simp only [hc, reduceIte]
    refine ⟨?_, ?_, ?_, ?_, ?_⟩
    · show s.sessions + 1 ≤ 1
      omega
    · show ([] : List timeslot_request_t).length ≤ 1
      simp
    · show SessionState.Idle = .Closed ↔ s.sessions + 1 = 0
      simp [hs0]
    · show ([] : List timeslot_request_t) ≠ [] → SessionState.Idle = .Pending
      simp
    · show (none : Option Grant).isSome = true ↔ SessionState.Idle = .Active
      simp
  · simp only [if_neg hc]
    exact ⟨h1, h2, h3, h4, h5⟩

lemma inv_close {s : SchedState} (h : Inv s) :
    Inv (timeslot_session_close s).2 := by
  obtain ⟨h1, h2, h3, h4, h5⟩ := h
  unfold timeslot_session_close
  by_cases hc : s.state = .Closed
  · simp only [hc, reduceIte]
    exact ⟨h1, h2, h3, h4, h5⟩
  · have hns : s.sessions ≠ 0 := fun h0 => hc (h3.mpr h0)
    simp only [if_neg hc]
    refine ⟨?_, ?_, ?_, ?_, ?_⟩
    · show s.sessions - 1 ≤ 1
      omega
    · show ([] : List timeslot_request_t).length ≤ 1
      simp
    · show SessionState.Closed = .Closed ↔ s.sessions - 1 = 0
      simp
      omega
    · show ([] : List timeslot_request_t) ≠ [] → SessionState.Closed = .Pending
      simp
    · show (none : Option Grant).isSome = true ↔ SessionState.Closed = .Active
      simp

lemma inv_request {s : SchedState} (r : timeslot_request_t) (h : Inv s) :
    Inv (timeslot_request s r).2 := by
  obtain ⟨h1, h2, h3, h4, h5⟩ := h
  unfold timeslot_request
  cases hv : validate s.state s.hasPriorGrant r with
  | Ok =>
    have hidle : s.state = .Idle := validate_ok_idle hv
    have hns : s.sessions ≠ 0 := fun h0 => by
      rw [h3.mpr h0] at hidle; exact SessionState.noConfusion hidle
    have hg : s.grant = none := by
      cases hgr : s.grant with
      | none => rfl
      | some g =>
        have : s.state = .Active := h5.mp (by rw [hgr]; rfl)
        rw [hidle] at this; exact SessionState.noConfusion this
    refine ⟨h1, by simp, by simp [hns], by simp, by simp [hg]⟩
  | RejectedOutOfRange => exact ⟨h1, h2, h3, h4, h5⟩
  | RejectedMustBeEarliestFirst => exact ⟨h1, h2, h3, h4, h5⟩
  | RejectedBusy => exact ⟨h1, h2, h3, h4, h5⟩

lemma inv_grantStart {s : SchedState} (actual : Nat) (h : Inv s) :
    Inv (tryGrantStart s actual).2 := by
  obtain ⟨h1, h2, h3, h4, h5⟩ := h
  unfold tryGrantStart
  split
  · rename_i r hst hpd
    have hns : s.sessions ≠ 0 := fun h0 => by
      rw [h3.mpr h0] at hst; exact SessionState.noConfusion hst
    split_ifs
    · refine ⟨h1, by simp, by simp [hns], by simp, by simp⟩
    · exact ⟨h1, h2, h3, h4, h5⟩
  · exact ⟨h1, h2, h3, h4, h5⟩

lemma inv_blocked {s : SchedState} (h : Inv s) : Inv (blockPending s) := by
  obtain ⟨h1, h2, h3, h4, h5⟩ := h
  unfold blockPending
  split
  · rename_i r hst hpd
    have hns : s.sessions ≠ 0 := fun h0 => by
      rw [h3.mpr h0] at hst; exact SessionState.noConfusion hst
    have hg : s.grant = none := by
      cases hgr : s.grant with
      | none => rfl
      | some g =>
        have : s.state = .Active := h5.mp (by rw [hgr]; rfl)
        rw [hst] at this; exact SessionState.noConfusion this
    refine ⟨h1, by simp, by simp [hns], by simp, by simp [hg]⟩
  · exact ⟨h1, h2, h3, h4, h5⟩

lemma inv_endGrantToIdle {s : SchedState} (hst : s.state = .Active)
    (h : Inv s) : Inv (endGrantToIdle s) := by
  obtain ⟨h1, h2, h3, h4, h5⟩ := h
  have hns : s.sessions ≠ 0 := fun h0 => by
    rw [h3.mpr h0] at hst; exact SessionState.noConfusion hst
  have hpd : s.pending = [] := by
    by_contra hne
    rw [hst] at h4
    exact SessionState.noConfusion (h4 hne)
  unfold endGrantToIdle
  refine ⟨h1, by simp [hpd], by simp [hns], by simp [hpd], by simp⟩

lemma inv_expiry {s : SchedState} (h : Inv s) : Inv (naturalExpiry s) := by
  unfold naturalExpiry
  split
  · rename_i hst hg
    exact inv_endGrantToIdle hst h
  · exact h

lemma inv_response {s : SchedState} (cid : Nat → Nat × Nat × Nat) (now : Nat)
    (r : timeslot_signal_return_param_t) (h : Inv s) :
    Inv (handleResponse cid now s r).2 := by
  obtain ⟨h1, h2, h3, h4, h5⟩ := h
  cases hgr : s.grant with
  | none => rw [handleResponse_grant_none hgr]; exact ⟨h1, h2, h3, h4, h5⟩
  | some g =>
    have hst : s.state = .Active := h5.mp (by rw [hgr]; rfl)
    have hns : s.sessions ≠ 0 := fun h0 => by
      rw [h3.mpr h0] at hst; exact SessionState.noConfusion hst
    have hend : Inv (endGrantToIdle s) :=
      inv_endGrantToIdle hst ⟨h1, h2, h3, h4, h5⟩
    cases hv : response_valid r with
    | false => rw [handleResponse_invalid hgr hv]; exact hend
    | true =>
      rcases response_valid_action_cases hv with ha | ha | ha | ⟨ha, p, hn⟩
      · rw [handleResponse_action_none hgr ha]
        exact ⟨h1, h2, h3, h4, h5⟩
      · rw [handleResponse_extend hgr ha]
        split_ifs with hext
        · refine ⟨h1, h2, ?_, h4, ?_⟩
          · simpa using h3
          · simpa using hst
        · exact ⟨h1, h2, h3, h4, h5⟩
      · rw [handleResponse_action_end hgr ha]
        exact hend
      · rw [handleResponse_request_normal hgr ha hn]
        cases hvv : validate .Idle s.hasPriorGrant (.normal p) with
        | Ok => exact ⟨h1, by simp, by simp [hns], by simp, by simp⟩
        | RejectedOutOfRange => exact hend
        | RejectedMustBeEarliestFirst => exact hend
        | RejectedBusy => exact hend

lemma inv_lowprio {s : SchedState} (h : Inv s) :
    Inv (low_prio_tasks_process s).2 := by
  obtain ⟨h1, h2, h3, h4, h5⟩ := h
  exact ⟨h1, h2, h3, h4, h5⟩

lemma reachable_inv {s : SchedState} (h : Reachable s) : Inv s := by
  induction h with
  | init => exact inv_init
  | sopen _ ih => exact inv_open ih
  | sclose _ ih => exact inv_close ih
  | request r _ ih => exact inv_request r ih
  | grantStart actual _ ih => exact inv_grantStart actual ih
  | blocked _ ih => exact inv_blocked ih
  | expiry _ ih => exact inv_expiry ih
  | response cid now r _ ih => exact inv_response cid now r ih
  | lowprio _ ih => exact inv_lowprio ih

/-- C1 (as stated): false — with a request already pending, a second request
    whose own fields are invalid (length 50 < 100) is rejected with
    `NRF_EINVAL` (OutOfRange, field validation runs first), not with Busy
    (`NRF_EAGAIN`). -/
theorem C1_counterexample :
    Reachable c1Pending ∧
    c1Pending.state = .Pending ∧
    (timeslot_request c1Pending
       (.earliest { hfclk := 0, priority := 0, length_us := 50,
                    timeout_us := 50000 })).1 = .einval ∧
    (timeslot_request c1Pending
       (.earliest { hfclk := 0, priority := 0, length_us := 50,
                    timeout_us := 50000 })).1 ≠ .eagain :=
  ⟨Reachable.request _ (Reachable.sopen Reachable.init),
   by decide, by decide, by decide⟩

/-- C1 (amended): in every reachable state the scheduler holds at most one
    session and at most one queued request; opening a session while one is
    open fails with `NRF_EAGAIN` and changes nothing; a request submitted
    while a request is Pending or Active is always rejected with the state
    unchanged — with Busy (`NRF_EAGAIN`) when its own fields would pass
    validation, and with OutOfRange otherwise, since field validation is
    evaluated first. -/
theorem C1_single_session_single_request {s : SchedState}
    (hreach : Reachable s) :
    (s.state ≠ .Closed →
      (timeslot_session_open s).1 = .eagain ∧
      (timeslot_session_open s).2 = s) ∧
    (∀ r : timeslot_request_t, s.state = .Pending ∨ s.state = .Active →
      (timeslot_request s r).1 ≠ .ok ∧ (timeslot_request s r).2 = s ∧
      (validate .Idle s.hasPriorGrant r = .Ok →
        (timeslot_request s r).1 = .eagain)) ∧
    s.sessions ≤ 1 ∧ s.pending.length ≤ 1 := by
  obtain ⟨h1, h2, h3, h4, h5⟩ := reachable_inv hreach
  refine ⟨?_, ?_, h1, h2⟩
  · intro hne
    unfold timeslot_session_open
    simp [hne]
  · intro r hpa
    have hni : s.state ≠ .Idle := by
      rcases hpa with h | h <;> rw [h] <;> simp
    have hnotok : validate s.state s.hasPriorGrant r ≠ .Ok :=
      fun hOk => hni (validate_ok_idle hOk)
    refine ⟨?_, timeslot_request_reject hnotok, ?_⟩
    · rw [timeslot_request_fst]
      simp only [ne_eq, toErrno_eq_ok]
      exact hnotok
    · intro hv
      rw [timeslot_request_fst, validate_not_idle hv hni]
      rfl

/-- witness for C1 (amended) at the reachable pending state -/
theorem C1_single_session_single_request_witness :
    (c1Pending.state ≠ .Closed →
      (timeslot_session_open c1Pending).1 = .eagain ∧
      (timeslot_session_open c1Pending).2 = c1Pending) ∧
    (∀ r : timeslot_request_t,
        c1Pending.state = .Pending ∨ c1Pending.state = .Active →
      (timeslot_request c1Pending r).1 ≠ .ok ∧
      (timeslot_request c1Pending r).2 = c1Pending ∧
      (validate .Idle c1Pending.hasPriorGrant r = .Ok →
        (timeslot_request c1Pending r).1 = .eagain)) ∧
    c1Pending.sessions ≤ 1 ∧ c1Pending.pending.length ≤ 1 :=
  C1_single_session_single_request
    (Reachable.request _ (Reachable.sopen Reachable.init))

lemma extendOk_iff {cid : Nat → Nat × Nat × Nat} {now : Nat} {g : Grant}
    {ext : Nat} :
    extendOk cid now g ext = true ↔
      (now + TIMESLOT_EXTENSION_MARGIN_MIN_US ≤ g.endTime ∧
       TIMESLOT_EXTENSION_TIME_MIN_US ≤ ext ∧
       ¬(g.endTime < (cid g.endTime).1 + (cid g.endTime).2.1 ∧
         (cid g.endTime).1 < g.endTime + ext)) := by
  unfold extendOk
  simp only [Bool.and_eq_true, decide_eq_true_eq, Bool.not_eq_true',
             Bool.and_eq_false_iff, decide_eq_false_iff_not, and_assoc]
  omega

/-- C4: during an active grant, an `EXTEND` action is accepted exactly when
    at least `TIMESLOT_EXTENSION_MARGIN_MIN_US` (79µs) remains before the
    grant end at the time it is processed, the requested extension is at least
    `TIMESLOT_EXTENSION_TIME_MIN_US` (200µs), and the extended window does not
    collide with the Competing Internal Demand's next reserved window; on
    success `SIGNAL_EXTEND_SUCCEEDED` is emitted and the grant length grows by
    exactly the requested amount, on failure `SIGNAL_EXTEND_FAILED` is emitted
    and the state (including the grant) is unchanged; both outcome signals are
    returned synchronously within the same signal-handling pass (nothing is
    queued for the deferred low-priority context, and timeslot.h documents
    both signals as executing in the same context as the previous signal). -/
theorem C4_extend_semantics {cid : Nat → Nat × Nat × Nat} {now : Nat}
    {s : SchedState} {g : Grant} (ext : Nat) (hg : s.grant = some g) :
    ((now + TIMESLOT_EXTENSION_MARGIN_MIN_US ≤ g.endTime ∧
      TIMESLOT_EXTENSION_TIME_MIN_US ≤ ext ∧
      ¬(g.endTime < (cid g.endTime).1 + (cid g.endTime).2.1 ∧
        (cid g.endTime).1 < g.endTime + ext)) →
      handleResponse cid now s (extendResp ext) =
        ([TIMESLOT_SIGNAL_EXTEND_SUCCEEDED],
         { s with grant := some { g with length_us := g.length_us + ext } })) ∧
    (¬(now + TIMESLOT_EXTENSION_MARGIN_MIN_US ≤ g.endTime ∧
       TIMESLOT_EXTENSION_TIME_MIN_US ≤ ext ∧
       ¬(g.endTime < (cid g.endTime).1 + (cid g.endTime).2.1 ∧
         (cid g.endTime).1 < g.endTime + ext)) →
      handleResponse cid now s (extendResp ext) =
        ([TIMESLOT_SIGNAL_EXTEND_FAILED], s)) ∧
    (handleResponse cid now s (extendResp ext)).2.lowPrio = s.lowPrio ∧
    signal_context TIMESLOT_SIGNAL_EXTEND_SUCCEEDED =
      some ExecContext.sameAsPrevious ∧
    signal_context TIMESLOT_SIGNAL_EXTEND_FAILED =
      some ExecContext.sameAsPrevious := by
  have heq := @handleResponse_extend cid now s g (extendResp ext) hg rfl
  have hextarg : (extendResp ext).ext_length_us = ext := rfl
  rw [hextarg] at heq
  refine ⟨?_, ?_, ?_, by decide, by decide⟩
  · intro hc
    rw [heq, if_pos (extendOk_iff.mpr hc)]
  · intro hc
    have hfalse : extendOk cid now g ext = false := by
      cases hb : extendOk cid now g ext with
      | false => rfl
      | true => exact absurd (extendOk_iff.mp hb) hc
    rw [heq, hfalse]
    rfl
  · rw [heq]
    cases hb : extendOk cid now g ext with
    | false => rfl
    | true => rfl

/-- witness for C4: in an active session with grant `[0, 1000)`, a 200µs
    extension processed at time 0 succeeds -/
theorem C4_extend_semantics_witness :
    ((0 + TIMESLOT_EXTENSION_MARGIN_MIN_US ≤
        Grant.endTime { start_time := 0, length_us := 1000, hfclk := 0,
                        priority := 0 } ∧
      TIMESLOT_EXTENSION_TIME_MIN_US ≤ 200 ∧
      ¬(Grant.endTime { start_time := 0, length_us := 1000, hfclk := 0,
                        priority := 0 } <
          (c4Cid (Grant.endTime { start_time := 0, length_us := 1000,
                                  hfclk := 0, priority := 0 })).1 +
          (c4Cid (Grant.endTime { start_time := 0, length_us := 1000,
                                  hfclk := 0, priority := 0 })).2.1 ∧
        (c4Cid (Grant.endTime { start_time := 0, length_us := 1000,
                                hfclk := 0, priority := 0 })).1 <
          Grant.endTime { start_time := 0, length_us := 1000, hfclk := 0,
                          priority := 0 } + 200)) →
      handleResponse c4Cid 0 c4State (extendResp 200) =
        ([TIMESLOT_SIGNAL_EXTEND_SUCCEEDED],
         { c4State with grant := some { start_time := 0, length_us := 1200, hfclk := 0, priority := 0 } })) ∧
    (¬(0 + TIMESLOT_EXTENSION_MARGIN_MIN_US ≤
         Grant.endTime { start_time := 0, length_us := 1000, hfclk := 0,
                         priority := 0 } ∧
       TIMESLOT_EXTENSION_TIME_MIN_US ≤ 200 ∧
       ¬(Grant.endTime { start_time := 0, length_us := 1000, hfclk := 0,
                         priority := 0 } <
           (c4Cid (Grant.endTime { start_time := 0, length_us := 1000,
                                   hfclk := 0, priority := 0 })).1 +
           (c4Cid (Grant.endTime { start_time := 0, length_us := 1000,
                                   hfclk := 0, priority := 0 })).2.1 ∧
         (c4Cid (Grant.endTime { start_time := 0, length_us := 1000,
                                 hfclk := 0, priority := 0 })).1 <
           Grant.endTime { start_time := 0, length_us := 1000, hfclk := 0,
                           priority := 0 } + 200)) →
      handleResponse c4Cid 0 c4State (extendResp 200) =
        ([TIMESLOT_SIGNAL_EXTEND_FAILED], c4State)) ∧
    (handleResponse c4Cid 0 c4State (extendResp 200)).2.lowPrio =
      c4State.lowPrio ∧
    signal_context TIMESLOT_SIGNAL_EXTEND_SUCCEEDED =
      some ExecContext.sameAsPrevious ∧
    signal_context TIMESLOT_SIGNAL_EXTEND_FAILED =
      some ExecContext.sameAsPrevious :=
  @C4_extend_semantics c4Cid 0 c4State
    { start_time := 0, length_us := 1000, hfclk := 0, priority := 0 } 200 rfl

/-- C5: any owner response during an active grant that fails structural
    validation (unrecognized action code, or required sub-parameters missing
    for the given action) force-ends the grant immediately — the dispatcher's
    next state has no grant and is back to `Idle` — and
    `SIGNAL_INVALID_RETURN` is the one signal delivered in the same
    signal-handling pass (timeslot.h documents it as executing in the same
    context as the signal whose return was invalid); the recovery keeps the
    session open with no retry counter of any kind, so after every invalid
    return any valid request is accepted again. -/
theorem C5_invalid_return_recovery {cid : Nat → Nat × Nat × Nat} {now : Nat}
    {s : SchedState} {g : Grant} (r : timeslot_signal_return_param_t)
    (hg : s.grant = some g) (hv : response_valid r = false) :
    handleResponse cid now s r =
      ([TIMESLOT_SIGNAL_INVALID_RETURN], endGrantToIdle s) ∧
    (handleResponse cid now s r).2.grant = none ∧
    (handleResponse cid now s r).2.state = .Idle ∧
    (handleResponse cid now s r).2.sessions = s.sessions ∧
    signal_context TIMESLOT_SIGNAL_INVALID_RETURN =
      some ExecContext.sameAsPrevious ∧
    (∀ r2 : timeslot_request_t,
       validate .Idle s.hasPriorGrant r2 = .Ok →
       (timeslot_request (handleResponse cid now s r).2 r2).1 = .ok) := by
  have heq := @handleResponse_invalid cid now s g r hg hv
  rw [heq]
  refine ⟨rfl, rfl, rfl, rfl, by decide, ?_⟩
  intro r2 hv2
  rw [timeslot_request_fst]
  show (validate .Idle s.hasPriorGrant r2).toErrno = .ok
  rw [hv2]
  rfl

/-- witness for C5: an unrecognized action code 9 returned during the active
    grant `[0, 1000)` -/
theorem C5_invalid_return_recovery_witness :
    handleResponse c4Cid 0 c5State c5Resp =
      ([TIMESLOT_SIGNAL_INVALID_RETURN], endGrantToIdle c5State) ∧
    (handleResponse c4Cid 0 c5State c5Resp).2.grant = none ∧
    (handleResponse c4Cid 0 c5State c5Resp).2.state = .Idle ∧
    (handleResponse c4Cid 0 c5State c5Resp).2.sessions = c5State.sessions ∧
    signal_context TIMESLOT_SIGNAL_INVALID_RETURN =
      some ExecContext.sameAsPrevious ∧
    (∀ r2 : timeslot_request_t,
       validate .Idle c5State.hasPriorGrant r2 = .Ok →
       (timeslot_request (handleResponse c4Cid 0 c5State c5Resp).2 r2).1 =
         .ok) :=
  C5_invalid_return_recovery c5Resp rfl rfl

/-- C10: a `REQUEST` action returned from within an active timeslot whose
    embedded request is of type `TIMESLOT_REQ_TYPE_EARLIEST` is treated as an
    invalid return, not admitted: the grant is force-ended, the request is not
    enqueued, and `SIGNAL_INVALID_RETURN` is delivered. -/
theorem C10_no_earliest_within_timeslot {cid : Nat → Nat × Nat × Nat}
    {now : Nat} {s : SchedState} {g : Grant}
    (p : timeslot_request_earliest_t) (hg : s.grant = some g) :
    response_valid (requestResp (.earliest p)) = false ∧
    handleResponse cid now s (requestResp (.earliest p)) =
      ([TIMESLOT_SIGNAL_INVALID_RETURN], endGrantToIdle s) ∧
    (handleResponse cid now s (requestResp (.earliest p))).2.pending =
      s.pending ∧
    (handleResponse cid now s (requestResp (.earliest p))).2.grant = none := by
  have hv : response_valid (requestResp (.earliest p)) = false := rfl
  have heq := @handleResponse_invalid cid now s g (requestResp (.earliest p))
    hg hv
  rw [heq]
  exact ⟨hv, rfl, rfl, rfl⟩

/-- witness for C10: an Earliest request embedded in a `REQUEST` action during
    the active grant `[0, 1000)` -/
theorem C10_no_earliest_within_timeslot_witness :
    response_valid (requestResp (.earliest c10Req)) = false ∧
    handleResponse c4Cid 0 c10State (requestResp (.earliest c10Req)) =
      ([TIMESLOT_SIGNAL_INVALID_RETURN], endGrantToIdle c10State) ∧
    (handleResponse c4Cid 0 c10State
        (requestResp (.earliest c10Req))).2.pending = c10State.pending ∧
    (handleResponse c4Cid 0 c10State
        (requestResp (.earliest c10Req))).2.grant = none :=
  C10_no_earliest_within_timeslot c10Req rfl

/-- C6 (as stated): false — timeslot.h defines `distance_us` as the distance
    from the START of the previous timeslot, not from its end.  After a grant
    that ran over `[0, 500)` (so it ended at t = 500), the scheduler admits a
    `Normal{distance=200, length=500}` request at start time 200, which is not
    within ±2µs of the claim's predicted 500 + 200 = 700. -/
theorem C6_counterexample :
    Reachable c6Trace5 ∧
    c6Trace3.grant =
      some { start_time := 0, length_us := 500, hfclk := 0, priority := 0 } ∧
    c6Trace5.state = .Pending ∧
    (tryGrantStart c6Trace5 200).1 = [TIMESLOT_SIGNAL_START] ∧
    (tryGrantStart c6Trace5 200).2.grant =
      some { start_time := 200, length_us := 500, hfclk := 0,
             priority := 0 } ∧
    ¬(startWithinJitter (500 + 200) 200 = true) :=
  ⟨Reachable.request _
     (Reachable.expiry
       (Reachable.grantStart 0
         (Reachable.request _ (Reachable.sopen Reachable.init)))),
   by decide, by decide, by decide, by decide, by decide⟩

/-- C6 (amended): a Normal request with distance `d` is granted at
    `lastGrantStart + d` — the distance is measured from the start of the
    previous timeslot, as timeslot.h documents — within the ±2µs start
    jitter; in particular, `Normal{distance=200, length=500}` submitted
    immediately after a grant that started at t=0 is granted a start within
    `[198, 202]`. -/
theorem C6_normal_distance_from_start {s : SchedState}
    {p : timeslot_request_normal_t} (a : Nat)
    (hs : s.state = .Pending) (hp : s.pending = [.normal p])
    (hok : grantStartOk s (.normal p) a = true) :
    s.lastGrantStart + p.distance_us ≤ a + TIMESLOT_START_JITTER_US ∧
    a ≤ s.lastGrantStart + p.distance_us + TIMESLOT_START_JITTER_US ∧
    (tryGrantStart s a).1 = [TIMESLOT_SIGNAL_START] ∧
    (tryGrantStart s a).2.grant =
      some { start_time := a, length_us := p.length_us, hfclk := p.hfclk,
             priority := p.priority } := by
  have hj : startWithinJitter (s.lastGrantStart + p.distance_us) a = true :=
    hok
  unfold startWithinJitter at hj
  simp only [Bool.and_eq_true, decide_eq_true_eq] at hj
  have ht : tryGrantStart s a =
      ([TIMESLOT_SIGNAL_START],
       { s with state := .Active, pending := [], hasPriorGrant := true,
                lastGrantStart := a,
                grant := some { start_time := a, length_us := p.length_us, hfclk := p.hfclk, priority := p.priority } }) := by
    unfold tryGrantStart
    rw [hs, hp]
    simp [hok, reqLength, reqHfclk, reqPriority]
  rw [ht]
  exact ⟨hj.1, hj.2, rfl, rfl⟩

/-- witness for C6 (amended): the state of the counterexample trace with the
    admitted start time 200 -/
theorem C6_normal_distance_from_start_witness :
    c6Trace5.lastGrantStart +
        ({ hfclk := 0, priority := 0, distance_us := 200, length_us := 500 } :
          timeslot_request_normal_t).distance_us ≤
      200 + TIMESLOT_START_JITTER_US ∧
    200 ≤ c6Trace5.lastGrantStart +
        ({ hfclk := 0, priority := 0, distance_us := 200, length_us := 500 } :
          timeslot_request_normal_t).distance_us + TIMESLOT_START_JITTER_US ∧
    (tryGrantStart c6Trace5 200).1 = [TIMESLOT_SIGNAL_START] ∧
    (tryGrantStart c6Trace5 200).2.grant =
      some { start_time := 200, length_us := 500, hfclk := 0,
             priority := 0 } :=
  C6_normal_distance_from_start 200 (by decide) (by decide) (by decide)

/-- C8 (as stated): false — timeslot.h documents `SIGNAL_INVALID_RETURN` as
    executed "in the same context as the previous signal which had an invalid
    return value", not in the `ble_controller_low_prio_tasks_process`
    context used for BLOCKED, CANCELLED and SESSION_IDLE. -/
theorem C8_counterexample :
    signal_context TIMESLOT_SIGNAL_INVALID_RETURN =
      some ExecContext.sameAsPrevious ∧
    signal_context TIMESLOT_SIGNAL_INVALID_RETURN ≠
      some ExecContext.lowPrioTasksProcess := by
  exact ⟨by decide, by decide⟩

/-- C8 (amended): the low-priority signals BLOCKED, CANCELLED and
    SESSION_IDLE are delivered outside the interrupt path in the
    `ble_controller_low_prio_tasks_process` context, while INVALID_RETURN is
    delivered in the same context as the signal whose return was invalid;
    every transition of the arbiter appends its deferred signals to the
    low-priority queue in event order without reordering or duplication, and
    processing the queue delivers exactly the queued signals, in that order,
    and empties the queue. -/
theorem C8_low_prio_signal_delivery (s : SchedState) :
    signal_context TIMESLOT_SIGNAL_BLOCKED =
      some ExecContext.lowPrioTasksProcess ∧
    signal_context TIMESLOT_SIGNAL_CANCELLED =
      some ExecContext.lowPrioTasksProcess ∧
    signal_context TIMESLOT_SIGNAL_SESSION_IDLE =
      some ExecContext.lowPrioTasksProcess ∧
    signal_context TIMESLOT_SIGNAL_INVALID_RETURN =
      some ExecContext.sameAsPrevious ∧
    (low_prio_tasks_process s).1 = s.lowPrio ∧
    (low_prio_tasks_process s).2.lowPrio = [] ∧
    (∀ (cid : Nat → Nat × Nat × Nat) (now : Nat)
       (r : timeslot_signal_return_param_t),
       ∃ t, (handleResponse cid now s r).2.lowPrio = s.lowPrio ++ t) ∧
    (∀ r : timeslot_request_t,
       (timeslot_request s r).2.lowPrio = s.lowPrio) ∧
    (∃ t, (timeslot_session_close s).2.lowPrio = s.lowPrio ++ t) ∧
    (∃ t, (blockPending s).lowPrio = s.lowPrio ++ t) ∧
    (∃ t, (naturalExpiry s).lowPrio = s.lowPrio ++ t) ∧
    (∀ a : Nat, (tryGrantStart s a).2.lowPrio = s.lowPrio) := by
  refine ⟨by decide, by decide, by decide, by decide, rfl, rfl, ?_, ?_, ?_,
          ?_, ?_, ?_⟩
  · intro cid now r
    cases hgr : s.grant with
    | none =>
      rw [handleResponse_grant_none hgr]
      exact ⟨[], by simp⟩
    | some g =>
      cases hv : response_valid r with
      | false =>
        rw [handleResponse_invalid hgr hv]
        exact ⟨[TIMESLOT_SIGNAL_SESSION_IDLE], rfl⟩
      | true =>
        rcases response_valid_action_cases hv with ha | ha | ha | ⟨ha, p, hn⟩
        · rw [handleResponse_action_none hgr ha]
          exact ⟨[], by simp⟩
        · rw [handleResponse_extend hgr ha]
          split_ifs with hext
          · exact ⟨[], by simp⟩
          · exact ⟨[], by simp⟩
        · rw [handleResponse_action_end hgr ha]
          exact ⟨[TIMESLOT_SIGNAL_SESSION_IDLE], rfl⟩
        · rw [handleResponse_request_normal hgr ha hn]
          cases hvv : validate .Idle s.hasPriorGrant (.normal p) with
          | Ok => exact ⟨[], by simp⟩
          | RejectedOutOfRange => exact ⟨[TIMESLOT_SIGNAL_SESSION_IDLE], rfl⟩
          | RejectedMustBeEarliestFirst =>
            exact ⟨[TIMESLOT_SIGNAL_SESSION_IDLE], rfl⟩
          | RejectedBusy => exact ⟨[TIMESLOT_SIGNAL_SESSION_IDLE], rfl⟩
  · intro r
    unfold timeslot_request
    cases validate s.state s.hasPriorGrant r <;> rfl
  · unfold timeslot_session_close
    by_cases hc : s.state = .Closed
    · rw [if_pos hc]
      exact ⟨[], by simp⟩
    · rw [if_neg hc]
      exact ⟨if s.state = .Pending then [TIMESLOT_SIGNAL_CANCELLED]
             else [], rfl⟩
  · unfold blockPending
    split
    · exact ⟨[TIMESLOT_SIGNAL_BLOCKED], rfl⟩
    · exact ⟨[], by simp⟩
  · unfold naturalExpiry
    split
    · exact ⟨[TIMESLOT_SIGNAL_SESSION_IDLE], rfl⟩
    · exact ⟨[], by simp⟩
  · intro a
    unfold tryGrantStart
    split
    · split_ifs <;> rfl
    · rfl

end Timeslot
